import Mathlib

/-!
Shallow embedding of the bump allocator in `src/sdk-templates/cpp/src/main.c`.

The C module targets wasm32 (built with emcc), so `size_t` is a 32-bit
unsigned integer and all `size_t` arithmetic is taken modulo `2^32`.
We model bytes offsets and sizes as `Nat` with explicit `% W` where the C
arithmetic can wrap.

The allocator state is the single mutable variable `heap_ptr` (the bump
cursor into the static 64KB array `heap`).  The heap contents are never
read or written by the allocator itself, so they are not part of the model.
A returned pointer `&heap[off]` is modelled as `some off` (the offset of
the pointer from the arena base); the C `NULL` return is `none`.
-/

/-- Arena capacity: `sizeof(heap)` for `static uint8_t heap[65536]`. -/
def HEAP_SIZE : Nat := 65536

/-- Modulus of wasm32 `size_t` arithmetic. -/
def W : Nat := 2 ^ 32

/-- Allocator state: the single mutable `static size_t heap_ptr`. -/
structure AllocState where
  heap_ptr : Nat
deriving DecidableEq

/-- The state at module start: `heap_ptr = 0`. -/
def initState : AllocState := ⟨0⟩

/-- The cursor advance `(size + 7) & ~7` computed in 32-bit `size_t`
arithmetic: `~7` on a 32-bit unsigned is `2^32 - 8`. -/
def alignAdvance (size : Nat) : Nat := ((size + 7) % W) &&& (W - 8)

/-- `void* alloc(size_t size)`: if `heap_ptr + size > sizeof(heap)` (the sum
computed modulo `2^32`) return `NULL`; otherwise return `&heap[heap_ptr]`
and advance `heap_ptr` by `(size + 7) & ~7` (again modulo `2^32`).
Result: (returned pointer as arena offset, state after the call). -/
def alloc (s : AllocState) (size : Nat) : Option Nat × AllocState :=
  if (s.heap_ptr + size) % W > HEAP_SIZE then
    (none, s)
  else
    (some s.heap_ptr, ⟨(s.heap_ptr + alignAdvance size) % W⟩)

/-- `void dealloc(void* ptr, size_t size)`: a no-op. -/
def dealloc (s : AllocState) (ptr : Nat) (size : Nat) : AllocState := s

/-- `void reset_heap(void)`: sets `heap_ptr = 0`. -/
def reset_heap (s : AllocState) : AllocState := ⟨0⟩

/-- One host-visible call into the allocator interface. -/
inductive Op where
  | allocOp (size : Nat)
  | deallocOp (ptr size : Nat)
  | resetOp
deriving DecidableEq

/-- Effect of one call on the allocator state. -/
def step (s : AllocState) : Op → AllocState
  | .allocOp size => (alloc s size).2
  | .deallocOp ptr size => dealloc s ptr size
  | .resetOp => reset_heap s

/-- Effect of a sequence of calls on the allocator state. -/
def run (s : AllocState) (ops : List Op) : AllocState := ops.foldl step s

/-- States reachable from module start by some sequence of calls. -/
def Reachable (s : AllocState) : Prop := ∃ ops, run initState ops = s

/-- Run a sequence of `alloc` calls; `some (regions, final state)` when every
call returns non-NULL (each region recorded as (start offset, requested
size)), `none` when any call returns NULL. -/
def allocRun (s : AllocState) : List Nat → Option (List (Nat × Nat) × AllocState)
  | [] => some ([], s)
  | size :: rest =>
    match alloc s size with
    | (none, _) => none
    | (some off, s1) =>
      (allocRun s1 rest).map (fun p => ((off, size) :: p.1, p.2))

/-- Run a sequence of `dealloc` calls with the given (ptr, size) arguments. -/
def deallocRun (s : AllocState) (calls : List (Nat × Nat)) : AllocState :=
  calls.foldl (fun st c => dealloc st c.1 c.2) s

/-- The byte ranges `[r.1, r.1 + r.2)` of two regions do not intersect. -/
def RegionsDisjoint (r1 r2 : Nat × Nat) : Prop :=
  r1.1 + r1.2 ≤ r2.1 ∨ r2.1 + r2.2 ≤ r1.1

instance (r1 r2 : Nat × Nat) : Decidable (RegionsDisjoint r1 r2) := by
  unfold RegionsDisjoint; infer_instance

-- ===========================================================================
-- Helper lemmas
-- ===========================================================================

/-- Masking a 32-bit value with `~7` (= `2^32 - 8`) clears its low 3 bits. -/
lemma land_mask (y : Nat) (hy : y < 2 ^ 32) : y &&& (2 ^ 32 - 8) = y / 8 * 8 := by
  have hmask : (2 : Nat) ^ 32 - 8 = (2 ^ 29 - 1) <<< 3 := by
    rw [Nat.shiftLeft_eq]; norm_num
  have hdiv : y / 8 * 8 = (y >>> 3) <<< 3 := by
    rw [Nat.shiftRight_eq_div_pow, Nat.shiftLeft_eq]
  rw [hmask, hdiv]
  apply Nat.eq_of_testBit_eq
  intro i
  rw [Nat.testBit_land, Nat.testBit_shiftLeft, Nat.testBit_shiftLeft,
    Nat.testBit_two_pow_sub_one, Nat.testBit_shiftRight]
  rcases lt_or_le i 3 with h3 | h3
  · simp [Nat.not_le.mpr h3]
  · have h3d : decide (i ≥ 3) = true := by simpa using h3
    have hi3 : 3 + (i - 3) = i := by omega
    rcases lt_or_le i 32 with h32 | h32
    · have h29 : decide (i - 3 < 29) = true := by simp; omega
      simp [h3d, hi3, h29]
    · have hbit : y.testBit i = false :=
        Nat.testBit_lt_two_pow (lt_of_lt_of_le hy (Nat.pow_le_pow_right (by norm_num) h32))
      have h29 : decide (i - 3 < 29) = false := by simp; omega
      simp [h3d, hi3, hbit, h29]

/-- Arithmetic form of the cursor advance. -/
lemma alignAdvance_eq (size : Nat) :
    alignAdvance size = ((size + 7) % W) / 8 * 8 := by
  unfold alignAdvance W
  exact land_mask _ (Nat.mod_lt _ (by norm_num))

/-- `alloc` only depends on the 32-bit value of its `size_t` argument. -/
lemma alloc_mod (s : AllocState) (size : Nat) : alloc s size = alloc s (size % W) := by
  unfold alloc
  rw [alignAdvance_eq, alignAdvance_eq]
  rw [show (s.heap_ptr + size) % W = (s.heap_ptr + size % W) % W by unfold W; omega]
  rw [show (size + 7) % W = (size % W + 7) % W by unfold W; omega]

/-- The allocator invariant: the cursor is 8-byte aligned and within bounds. -/
def ArenaInv (s : AllocState) : Prop := 8 ∣ s.heap_ptr ∧ s.heap_ptr ≤ HEAP_SIZE

lemma inv_init : ArenaInv initState := by constructor <;> simp [initState, HEAP_SIZE]

lemma inv_step (s : AllocState) (op : Op) (h : ArenaInv s) : ArenaInv (step s op) := by
  obtain ⟨hdvd, hle⟩ := h
  cases op with
  | deallocOp ptr size => exact ⟨hdvd, hle⟩
  | resetOp => exact ⟨by simp [step, reset_heap], by simp [step, reset_heap, HEAP_SIZE]⟩
  | allocOp size =>
    show ArenaInv (alloc s size).2
    rw [alloc_mod]
    set k := size % W with hk
    have hkW : k < W := Nat.mod_lt _ (by norm_num [W])
    unfold alloc
    split
    · exact ⟨hdvd, hle⟩
    · rename_i hcheck
      constructor
      · show 8 ∣ (s.heap_ptr + alignAdvance k) % W
        rw [alignAdvance_eq]
        have h8W : (8 : Nat) ∣ W := by norm_num [W]
        rw [Nat.dvd_mod_iff h8W]
        exact Nat.dvd_add hdvd (dvd_mul_left 8 _)
      · show (s.heap_ptr + alignAdvance k) % W ≤ HEAP_SIZE
        rw [alignAdvance_eq]
        push_neg at hcheck
        revert hcheck hkW hle hdvd
        unfold W HEAP_SIZE
        omega

lemma inv_run (ops : List Op) (s : AllocState) (h : ArenaInv s) : ArenaInv (run s ops) := by
  induction ops generalizing s with
  | nil => exact h
  | cons op rest ih => exact ih _ (inv_step s op h)

lemma inv_reachable (s : AllocState) (h : Reachable s) : ArenaInv s := by
  obtain ⟨ops, hops⟩ := h
  rw [← hops]
  exact inv_run ops initState inv_init

-- ===========================================================================
-- Claim theorems
-- ===========================================================================

/-- Claim C1 (violated by the code): it is not true that every sequence of
successful `alloc` calls yields pairwise disjoint regions.  Because the
bounds check wraps in 32-bit arithmetic, the requests 1, 4294967292, 1 all
succeed from module start, and the second and third returned regions both
start at offset 8, so they overlap. -/
theorem alloc_disjointness_violated :
    allocRun initState [1, 4294967292, 1] =
      some ([(0, 1), (8, 4294967292), (8, 1)], ⟨16⟩) ∧
    ¬ List.Pairwise RegionsDisjoint [(0, 1), (8, 4294967292), (8, 1)] := by
  constructor
  · decide
  · decide

/-- Claim C2 (violated by the code): from the reachable state with cursor 8,
the request 4294967292 satisfies `cursor + aligned_size > C` (with
`aligned_size` the true round-up of the size to the next multiple of 8), so
the claim requires a NULL return, yet `alloc` returns non-NULL because its
bounds check wraps modulo `2^32`. -/
theorem alloc_oom_check_violated :
    Reachable ⟨8⟩ ∧ HEAP_SIZE < 8 + (4294967292 + 7) / 8 * 8 ∧
      (alloc ⟨8⟩ 4294967292).1 ≠ none := by
  exact ⟨⟨[Op.allocOp 1], by decide⟩, by decide, by decide⟩

/-- Claim C3 (violated by the code): a successful `alloc` call after which the
cursor did not advance by the requested size rounded up to the next multiple
of 8: the advance `(size + 7) & ~7` wraps to 0 in 32-bit arithmetic. -/
theorem alloc_advance_violated :
    Reachable ⟨8⟩ ∧ (alloc ⟨8⟩ 4294967292).1 = some 8 ∧
      (alloc ⟨8⟩ 4294967292).2.heap_ptr ≠ 8 + (4294967292 + 7) / 8 * 8 := by
  exact ⟨⟨[Op.allocOp 1], by decide⟩, by decide, by decide⟩

/-- Claim C4: whenever `alloc` returns NULL, the allocator state after the
call equals the state before it. -/
theorem alloc_fail_state_unchanged (s : AllocState) (size : Nat)
    (h : (alloc s size).1 = none) : (alloc s size).2 = s := by
  by_cases hc : (s.heap_ptr + size) % W > HEAP_SIZE
  · simp [alloc, hc]
  · simp [alloc, hc] at h

/-- Concrete instance of claim C4: `alloc(70000)` from module start fails and
leaves the state unchanged. -/
theorem alloc_fail_state_unchanged_witness :
    (alloc initState 70000).1 = none ∧ (alloc initState 70000).2 = initState :=
  ⟨by decide, alloc_fail_state_unchanged initState 70000 (by decide)⟩

/-- Claim C5 (violated by the code): a successful `alloc` call whose returned
region `[8, 8 + 4294967292)` does not lie within the arena bounds `[0, C)`. -/
theorem alloc_region_bounds_violated :
    Reachable ⟨8⟩ ∧ (alloc ⟨8⟩ 4294967292).1 = some 8 ∧
      ¬ 8 + 4294967292 ≤ HEAP_SIZE := by
  exact ⟨⟨[Op.allocOp 1], by decide⟩, by decide, by decide⟩

/-- Claim C6: in every reachable state the cursor satisfies
`0 ≤ cursor ≤ C`, and `dealloc` never changes the state, so only `alloc`
and `reset_heap` ever change the cursor. -/
theorem cursor_in_bounds :
    (∀ s : AllocState, Reachable s → 0 ≤ s.heap_ptr ∧ s.heap_ptr ≤ HEAP_SIZE) ∧
    (∀ (s : AllocState) (ptr size : Nat), dealloc s ptr size = s) :=
  ⟨fun s h => ⟨Nat.zero_le _, (inv_reachable s h).2⟩, fun _ _ _ => rfl⟩

/-- Concrete instance of claim C6 at the initial state. -/
theorem cursor_in_bounds_witness :
    0 ≤ initState.heap_ptr ∧ initState.heap_ptr ≤ HEAP_SIZE :=
  cursor_in_bounds.1 initState ⟨[], rfl⟩

/-- Claim C7 (violated by the code): a successful `alloc` call from the
reachable state with cursor 8 after which the cursor decreased (8 to 0)
without any reset: the cursor advance wraps modulo `2^32`. -/
theorem cursor_decrease_violated :
    Reachable ⟨8⟩ ∧ (alloc ⟨8⟩ 4294967288).1 = some 8 ∧
      (alloc ⟨8⟩ 4294967288).2.heap_ptr < (⟨8⟩ : AllocState).heap_ptr := by
  exact ⟨⟨[Op.allocOp 1], by decide⟩, by decide, by decide⟩

/-- Claim C8: `reset_heap` sets the cursor to 0, and for every `k ≤ C` for
which `alloc k` succeeds from the initial state, `alloc k` right after a
reset from any prior state also succeeds and returns offset 0. -/
theorem reset_then_alloc (s : AllocState) (k : Nat) (hk : k ≤ HEAP_SIZE)
    (hsucc : (alloc initState k).1.isSome) :
    (reset_heap s).heap_ptr = 0 ∧ (alloc (reset_heap s) k).1 = some 0 := by
  refine ⟨rfl, ?_⟩
  have hrs : reset_heap s = initState := rfl
  rw [hrs]
  by_cases hc : HEAP_SIZE < k % W
  · simp [alloc, initState, hc] at hsucc
  · simp [alloc, initState, hc]

/-- Concrete instance of claim C8: after a reset from cursor 24,
`alloc(50)` succeeds and returns offset 0. -/
theorem reset_then_alloc_witness :
    50 ≤ HEAP_SIZE ∧ ((reset_heap ⟨24⟩).heap_ptr = 0 ∧
      (alloc (reset_heap ⟨24⟩) 50).1 = some 0) :=
  ⟨by decide, reset_then_alloc ⟨24⟩ 50 (by decide) (by decide)⟩

/-- Any number of `dealloc` calls is the identity on the allocator state. -/
lemma deallocRun_id (calls : List (Nat × Nat)) (s : AllocState) :
    deallocRun s calls = s := by
  induction calls generalizing s with
  | nil => rfl
  | cons c rest ih => exact ih s

/-- Claim C9: `dealloc` is a pure no-op: any sequence of `dealloc` calls
leaves the allocator state unchanged and does not change the result of any
subsequent `alloc` call. -/
theorem dealloc_noop :
    ∀ (s : AllocState) (calls : List (Nat × Nat)),
      deallocRun s calls = s ∧
      ∀ size, alloc (deallocRun s calls) size = alloc s size :=
  fun s calls =>
    ⟨deallocRun_id calls s, fun _ => by rw [deallocRun_id]⟩

/-- Claim C10: there is a reachable state (cursor 8) and a size
(4294967292 = 2^32 - 4) greater than the remaining capacity for which
`alloc` returns non-NULL: the bounds check `heap_ptr + size > 65536` wraps
modulo `2^32`, the advance `(size + 7) & ~7` wraps as well, and the cursor
does not move past the returned region (here it does not move at all). -/
theorem alloc_overflow_wrap :
    ∃ (s : AllocState) (size : Nat), Reachable s ∧
      HEAP_SIZE - s.heap_ptr < size ∧
      (alloc s size).1 = some s.heap_ptr ∧
      W ≤ s.heap_ptr + size ∧ W ≤ size + 7 ∧
      (alloc s size).2.heap_ptr = s.heap_ptr := by
  refine ⟨⟨8⟩, 4294967292, ⟨[Op.allocOp 1], by decide⟩, by decide, by decide,
    by decide, by decide, by decide⟩
